import Mathlib

/-!
Verification development for the bitformat WebSocket frame decoder and
diagram renderer (src/websocket_frame.rs, src/websocket_frame/websocket_opcode.rs).

Modelling conventions:
* Bytes are `Nat` values (by convention in 0..255); machine arithmetic that can
  overflow in Rust is modelled explicitly (`frame_len` is `data.length % 256`
  for the `as u8` cast; `usize` subtraction is checked, as in a debug build,
  and surfaces as a `Panic.subOverflow`).
* Rust panics (index out of bounds, slice range errors, checked-subtraction
  overflow, the explicit length-code panic) are modelled as the `Panic` error
  of an `Except Panic` computation, carrying the same numeric data the runtime
  message carries.  A panic aborts the whole computation, like unwinding.
* ANSI colouring from the `colored` crate is modelled as the identity (the
  no-colour mode); the `FormatStyle` record only selects colours and has no
  effect on the rendered characters, so it is omitted from the frame model.
-/

namespace Bitformat

/-- Runtime failures of the Rust code: out-of-bounds indexing carries the
container length and the attempted index, slice range errors carry the
requested bounds and the length, checked `usize` subtraction overflow carries
nothing (as in the runtime message), and the explicit length-code panic at the
end of `get_payload_length` carries the offending code. -/
inductive Panic where
  | indexOOB (len ix : Nat)
  | sliceOOB (start stop len : Nat)
  | subOverflow
  | lengthCodePanic (code : Nat)
deriving DecidableEq, Repr

/-- Result of a computation that may panic. -/
abbrev Res (α : Type) := Except Panic α

instance {ε α : Type} [DecidableEq ε] [DecidableEq α] : DecidableEq (Except ε α) := fun
  | Except.ok a, Except.ok b =>
    if h : a = b then isTrue (by rw [h]) else isFalse (fun hc => h (Except.ok.inj hc))
  | Except.error e, Except.error e2 =>
    if h : e = e2 then isTrue (by rw [h]) else isFalse (fun hc => h (Except.error.inj hc))
  | Except.ok _, Except.error _ => isFalse (fun hc => Except.noConfusion hc)
  | Except.error _, Except.ok _ => isFalse (fun hc => Except.noConfusion hc)

/-- Rust container indexing `l[i]`: panics when out of bounds. -/
def idx {α : Type} (l : List α) (i : Nat) : Res α :=
  match l[i]? with
  | some v => Except.ok v
  | none => Except.error (Panic.indexOOB l.length i)

/-- Rust slicing `l[a..b]`: panics when `a > b` or `b > l.len()`. -/
def slice {α : Type} (l : List α) (a b : Nat) : Res (List α) :=
  if a > b then Except.error (Panic.sliceOOB a b l.length)
  else if b > l.length then Except.error (Panic.sliceOOB a b l.length)
  else Except.ok ((l.drop a).take (b - a))

/-- Checked `usize` subtraction (debug-build semantics: overflow panics). -/
def checkedSub (a b : Nat) : Res Nat :=
  if b ≤ a then Except.ok (a - b) else Except.error Panic.subOverflow

/-- `get_bit` from websocket_frame.rs: bit 0 is the most significant bit of
the byte; positions 8 and above yield `false`. -/
def get_bit (byte : Nat) (bit_position : Nat) : Bool :=
  match bit_position with
  | 0 => Nat.land byte 128 != 0
  | 1 => Nat.land byte 64 != 0
  | 2 => Nat.land byte 32 != 0
  | 3 => Nat.land byte 16 != 0
  | 4 => Nat.land byte 8 != 0
  | 5 => Nat.land byte 4 != 0
  | 6 => Nat.land byte 2 != 0
  | 7 => Nat.land byte 1 != 0
  | _ + 8 => false

/-- `get_bits_from_byte` from websocket_frame.rs. -/
def get_bits_from_byte (byte : Nat) (mask : Nat) : Nat :=
  Nat.land byte mask

/-- The opcode category enum of websocket_opcode.rs. -/
inductive WebSocketOpCode where
  | Continuation
  | Text
  | Binary
  | CloseConnection
  | Ping
  | Pong
  | Unrecognized
  | ReservedFuture
deriving DecidableEq, Repr

/-- `WebSocketOpCode::from_bit_value` from websocket_opcode.rs. -/
def WebSocketOpCode.from_bit_value (opcode_bits : Nat) : WebSocketOpCode :=
  match opcode_bits with
  | 0 => WebSocketOpCode.Continuation
  | 1 => WebSocketOpCode.Text
  | 2 => WebSocketOpCode.Binary
  | 8 => WebSocketOpCode.CloseConnection
  | 9 => WebSocketOpCode.Ping
  | 10 => WebSocketOpCode.Pong
  | 3 | 4 | 5 | 6 | 7 | 11 | 12 | 13 | 14 | 15 => WebSocketOpCode.ReservedFuture
  | _ => WebSocketOpCode.Unrecognized

/-- The payload length enum of websocket_frame.rs. -/
inductive PayloadLength where
  | Short (n : Nat)
  | Medium (n : Nat)
  | Long (n : Nat)
deriving DecidableEq, Repr

/-- The numeric payload length carried by a `PayloadLength` (the `match` at the
top of `format`). -/
def decoded_payload_length : PayloadLength → Nat
  | PayloadLength.Short n => n
  | PayloadLength.Medium n => n
  | PayloadLength.Long n => n

/-- `WebSocketFrame::get_payload_length` from websocket_frame.rs: code 0..125
is the length itself, 126 reads a big-endian u16 from the first two extension
bytes, 127 reads a big-endian u64 from the first eight; the extension-byte
indexing panics when too few bytes are available, and any other code hits the
explicit panic. -/
def get_payload_length (code : Nat) (ext_bytes : List Nat) : Res PayloadLength :=
  if code ≤ 125 then
    Except.ok (PayloadLength.Short code)
  else if code = 126 then do
    let e0 ← idx ext_bytes 0
    let e1 ← idx ext_bytes 1
    Except.ok (PayloadLength.Medium (e0 * 256 + e1))
  else if code = 127 then do
    let e0 ← idx ext_bytes 0
    let e1 ← idx ext_bytes 1
    let e2 ← idx ext_bytes 2
    let e3 ← idx ext_bytes 3
    let e4 ← idx ext_bytes 4
    let e5 ← idx ext_bytes 5
    let e6 ← idx ext_bytes 6
    let e7 ← idx ext_bytes 7
    Except.ok (PayloadLength.Long
      (e0 * 256 ^ 7 + e1 * 256 ^ 6 + e2 * 256 ^ 5 + e3 * 256 ^ 4 +
       e4 * 256 ^ 3 + e5 * 256 ^ 2 + e6 * 256 + e7))
  else
    Except.error (Panic.lengthCodePanic code)

/-- Count of extension bytes read by `get_payload_length` for each variant
(0, 2 or 8). -/
def ext_bytes_consumed : PayloadLength → Nat
  | PayloadLength.Short _ => 0
  | PayloadLength.Medium _ => 2
  | PayloadLength.Long _ => 8

/-- The offset at which `from_bytes` reads the 4 masking-key bytes
(the `masking_key` match: `data[2..]`, `data[4..]`, `data[10..]`). -/
def masking_key_offset : PayloadLength → Nat
  | PayloadLength.Short _ => 2
  | PayloadLength.Medium _ => 4
  | PayloadLength.Long _ => 10

/-- `payload_start_index` match in `from_bytes`: 6, 8 or 14. -/
def payload_start_index : PayloadLength → Nat
  | PayloadLength.Short _ => 6
  | PayloadLength.Medium _ => 8
  | PayloadLength.Long _ => 14

/-- The extension-byte assembly loop in `from_bytes`: for `ix in 0..8`, push
`data[ix + 2]` when in bounds; that is exactly the (up to) 8 bytes following
the first two. -/
def extension_data (data : List Nat) : List Nat :=
  (data.drop 2).take 8

/-- Cyclic lookup into the 4-byte masking key, `masking_key[i % 4]`
(the argument is always reduced mod 4 at call sites, so the catch-all is
unreachable). -/
def keyAt (key : Nat × Nat × Nat × Nat) : Nat → Nat
  | 0 => key.1
  | 1 => key.2.1
  | 2 => key.2.2.1
  | 3 => key.2.2.2
  | _ + 4 => 0

/-- The unmask-and-collect loop in `from_bytes`:
`for i in 0..num { push(data[payload_start_index + i] ^ masking_key[i % 4]) }`,
written as recursion on the remaining count with the current `i` explicit. -/
def unmaskLoop (data : List Nat) (key : Nat × Nat × Nat × Nat) (start : Nat) :
    Nat → Nat → Res (List Nat)
  | _, 0 => Except.ok []
  | i, n + 1 => do
    let b ← idx data (start + i)
    let rest ← unmaskLoop data key start (i + 1) n
    Except.ok (Nat.xor b (keyAt key (i % 4)) :: rest)

/-- The `payload_length_bytes` match in `from_bytes`: the Short arm wraps the
length code itself, the Medium/Long arms read the length-extension bytes
`data[2..=3]` resp. `data[2..=9]`. -/
def read_payload_length_bytes (data : List Nat) (payload_length_code : Nat) :
    PayloadLength → Res (List Nat)
  | PayloadLength.Short _ => Except.ok [payload_length_code]
  | PayloadLength.Medium _ => do
    let a2 ← idx data 2
    let a3 ← idx data 3
    Except.ok [a2, a3]
  | PayloadLength.Long _ => do
    let a2 ← idx data 2
    let a3 ← idx data 3
    let a4 ← idx data 4
    let a5 ← idx data 5
    let a6 ← idx data 6
    let a7 ← idx data 7
    let a8 ← idx data 8
    let a9 ← idx data 9
    Except.ok [a2, a3, a4, a5, a6, a7, a8, a9]

/-- The `masking_key` match in `from_bytes`: 4 bytes at `data[2..]`,
`data[4..]` or `data[10..]` depending on the variant. -/
def read_masking_key (data : List Nat) :
    PayloadLength → Res (Nat × Nat × Nat × Nat)
  | PayloadLength.Short _ => do
    let k0 ← idx data 2
    let k1 ← idx data 3
    let k2 ← idx data 4
    let k3 ← idx data 5
    Except.ok (k0, k1, k2, k3)
  | PayloadLength.Medium _ => do
    let k0 ← idx data 4
    let k1 ← idx data 5
    let k2 ← idx data 6
    let k3 ← idx data 7
    Except.ok (k0, k1, k2, k3)
  | PayloadLength.Long _ => do
    let k0 ← idx data 10
    let k1 ← idx data 11
    let k2 ← idx data 12
    let k3 ← idx data 13
    Except.ok (k0, k1, k2, k3)

/-- The decoded frame record of websocket_frame.rs (the `FormatStyle` field is
omitted: it only selects ANSI colours, which are modelled as the identity). -/
structure Frame where
  frame_len : Nat
  is_payload_masked : Bool
  payload_length : PayloadLength
  fin_bit : Bool
  rsv1 : Bool
  rsv2 : Bool
  rsv3 : Bool
  opcode_bits : Nat
  opcode : WebSocketOpCode
  mask_bit : Bool
  payload_length_code : Nat
  payload_length_bytes : List Nat
  masking_key : Nat × Nat × Nat × Nat
  masked_payload : List Nat
  unmasked_payload : List Nat
  payload_chars : List Char
deriving DecidableEq, Repr

/-- `WebSocketFrame::from_bytes`, with the same evaluation order as the Rust
source: byte 0, byte 1, extension bytes, payload length, payload-length bytes,
the `frame_length - payload_start_index` subtraction, masking key, the unmask
loop, and finally the masked-payload slice. -/
def from_bytes (data : List Nat) : Res Frame := do
  let frame_length := data.length
  let b0 ← idx data 0
  let opcode_bits := get_bits_from_byte b0 15
  let b1 ← idx data 1
  let is_payload_masked := get_bit b1 0
  let payload_length_code := get_bits_from_byte b1 127
  let payload_length ← get_payload_length payload_length_code (extension_data data)
  let payload_length_bytes ← read_payload_length_bytes data payload_length_code payload_length
  let num_payload_bytes ← checkedSub frame_length (payload_start_index payload_length)
  let masking_key ← read_masking_key data payload_length
  let unmasked_payload ←
    unmaskLoop data masking_key (payload_start_index payload_length) 0 num_payload_bytes
  let payload_chars := unmasked_payload.map (fun b => Char.ofNat b)
  let masked_payload ← slice data (payload_start_index payload_length) data.length
  Except.ok
    { frame_len := frame_length % 256
      is_payload_masked := is_payload_masked
      payload_length := payload_length
      fin_bit := get_bit b0 0
      rsv1 := get_bit b0 1
      rsv2 := get_bit b0 2
      rsv3 := get_bit b0 3
      opcode_bits := opcode_bits
      opcode := WebSocketOpCode.from_bit_value opcode_bits
      mask_bit := is_payload_masked
      payload_length_code := payload_length_code
      payload_length_bytes := payload_length_bytes
      masking_key := masking_key
      masked_payload := masked_payload
      unmasked_payload := unmasked_payload
      payload_chars := payload_chars }

/-- The minimum buffer length `from_bytes` can decode without panicking,
implied by the buffer itself: 2 header bytes must exist, and then the
variant selected by the length code fixes the payload start (6, 8 or 14). -/
def min_frame_size (data : List Nat) : Nat :=
  if data.length < 2 then 2
  else if get_bits_from_byte (data.getD 1 0) 127 ≤ 125 then 6
  else if get_bits_from_byte (data.getD 1 0) 127 = 126 then 8
  else 14

/-! ### Renderer

Transcription of the `format` family.  Rust `format!` width specifiers are
modelled by `padRight` (`{:w}`, strings left-align), `padLeft` (`{:>w}`) and
`center` (`{:^w}`, extra space on the right), all counting characters and
never truncating.  `.color(..)` wrappers are the identity (no-colour mode). -/

/-- A run of `n` spaces (also the rendering of `{0:n}` applied to `""`). -/
def spaces (n : Nat) : String :=
  String.mk (List.replicate n ' ')

/-- Rust `{:w}` for a string: left-aligned, space padding. -/
def padRight (s : String) (w : Nat) : String :=
  s ++ spaces (w - s.length)

/-- Rust `{:>w}`: right-aligned, space padding. -/
def padLeft (s : String) (w : Nat) : String :=
  spaces (w - s.length) ++ s

/-- Rust `{:^w}`: centred, the odd leftover space going to the right. -/
def center (s : String) (w : Nat) : String :=
  spaces ((w - s.length) / 2) ++ s ++ spaces ((w - s.length) - (w - s.length) / 2)

/-- `bit_str` from websocket_frame.rs. -/
def bit_str (bit : Bool) : String :=
  if bit then "1" else "0"

/-- `byte_str` from websocket_frame.rs: bits `8 - num_bits .. 7` of the byte,
space separated (the source pushes a space after each bit and then trims the
trailing one, which is exactly a space-intercalation). -/
def byte_str (byte : Nat) (num_bits : Nat) : String :=
  String.intercalate " "
    (((List.range 8).drop (8 - num_bits)).map (fun i => bit_str (get_bit byte i)))

/-- A single apostrophe (the quote around payload character previews). -/
def sq : String :=
  String.mk [Char.ofNat 39]

/-- `format!("({})", n)`: a decimal byte value in parentheses. -/
def paren (n : Nat) : String :=
  "(" ++ Nat.repr n ++ ")"

/-- A payload character preview in single quotes. -/
def quoted (c : Char) : String :=
  sq ++ String.mk [c] ++ sq

/-- Derived `Debug` rendering of `WebSocketOpCode` (used via `{:?}`). -/
def opcode_debug : WebSocketOpCode → String
  | WebSocketOpCode.Continuation => "Continuation"
  | WebSocketOpCode.Text => "Text"
  | WebSocketOpCode.Binary => "Binary"
  | WebSocketOpCode.CloseConnection => "CloseConnection"
  | WebSocketOpCode.Ping => "Ping"
  | WebSocketOpCode.Pong => "Pong"
  | WebSocketOpCode.Unrecognized => "Unrecognized"
  | WebSocketOpCode.ReservedFuture => "ReservedFuture"

/-- Derived `Debug` rendering of `PayloadLength` (used via `{:?}` in the
header block). -/
def payload_length_debug : PayloadLength → String
  | PayloadLength.Short n => "Short(" ++ Nat.repr n ++ ")"
  | PayloadLength.Medium n => "Medium(" ++ Nat.repr n ++ ")"
  | PayloadLength.Long n => "Long(" ++ Nat.repr n ++ ")"

/-- `WebSocketFrame::format_header`: ruler block of the diagram.  Pure: it
reads only `is_payload_masked` and `payload_length`. -/
def format_header (f : Frame) : String :=
  padRight "" 15
    ++ "+---------------+---------------+---------------+---------------+" ++ "\n"
  ++ center "Frame Data" 15 ++ "|" ++ center "Byte  1" 15 ++ "|" ++ center "Byte  2" 15
    ++ "|" ++ center "Byte  3" 15 ++ "|" ++ center "Byte  4" 15 ++ "|" ++ "\n"
  ++ padRight " " 2
    ++ (center (if f.is_payload_masked then "(Masked)" else "(Unmasked)") 10
        ++ padRight "" 3
        ++ "+---------------+---------------+---------------+---------------+")
    ++ "\n"
  ++ center (payload_length_debug f.payload_length) 15 ++ "|" ++ "0" ++ spaces 14 ++ "|"
    ++ spaces 4 ++ "1" ++ spaces 10 ++ "|" ++ spaces 8 ++ "2" ++ spaces 6 ++ "|"
    ++ spaces 12 ++ "3" ++ spaces 2 ++ "|" ++ "\n"
  ++ spaces 15 ++ "|" ++ "0 1 2 3 4 5 6 7" ++ "|" ++ "8 9 0 1 2 3 4 5" ++ "|"
    ++ "6 7 8 9 0 1 2 3" ++ "|" ++ "4 5 6 7 8 9 0 1" ++ "|" ++ "\n"

/-- `WebSocketFrame::format_first_dword`.  For the Medium/Long variants the
third and fourth byte columns (and the 16-bit note) read
`payload_length_bytes[0]` and `[1]`, which is Vec indexing and may panic. -/
def format_first_dword (f : Frame) : Res String := do
  let byte3 ←
    match f.payload_length with
    | PayloadLength.Short _ => Except.ok (byte_str (keyAt f.masking_key 0) 8)
    | PayloadLength.Medium _ => do
      Except.ok (byte_str (← idx f.payload_length_bytes 0) 8)
    | PayloadLength.Long _ => do
      Except.ok (byte_str (← idx f.payload_length_bytes 0) 8)
  let byte4 ←
    match f.payload_length with
    | PayloadLength.Short _ => Except.ok (byte_str (keyAt f.masking_key 1) 8)
    | PayloadLength.Medium _ => do
      Except.ok (byte_str (← idx f.payload_length_bytes 1) 8)
    | PayloadLength.Long _ => do
      Except.ok (byte_str (← idx f.payload_length_bytes 1) 8)
  let len_label :=
    match f.payload_length with
    | PayloadLength.Short n => Nat.repr n ++ " bytes"
    | PayloadLength.Medium _ => "126: Medium"
    | PayloadLength.Long _ => "127: Long"
  let ext_label ←
    match f.payload_length with
    | PayloadLength.Short _ => Except.ok ""
    | PayloadLength.Medium n => do
      let p0 ← idx f.payload_length_bytes 0
      let p1 ← idx f.payload_length_bytes 1
      Except.ok (center (paren p0) 6 ++ center (Nat.repr n ++ " bytes") 19
        ++ center (paren p1) 6)
    | PayloadLength.Long n => do
      let p0 ← idx f.payload_length_bytes 0
      let p1 ← idx f.payload_length_bytes 1
      Except.ok (center (paren p0) 6 ++ center (Nat.repr n ++ " bytes") 19
        ++ center (paren p1) 6)
  let key_note :=
    match f.payload_length with
    | PayloadLength.Short _ => "Masking-key (part 1)"
    | PayloadLength.Medium _ => "Payload length"
    | PayloadLength.Long _ => "Payload length (Part 1 of 4)"
  Except.ok (
    spaces 7 ++ "+-------+---------------+---------------+---------------+---------------+"
      ++ "\n"
    ++ spaces 7 ++ "|" ++ center "DWORD" 7 ++ "|" ++ bit_str f.fin_bit ++ "|"
      ++ bit_str f.rsv1 ++ "|" ++ bit_str f.rsv2 ++ "|" ++ bit_str f.rsv3 ++ "|"
      ++ byte_str f.opcode_bits 4 ++ "|" ++ bit_str f.mask_bit ++ "|"
      ++ byte_str f.payload_length_code 7 ++ "|" ++ byte3 ++ "|" ++ byte4 ++ "|" ++ "\n"
    ++ spaces 7 ++ "|" ++ center "1" 7 ++ "|" ++ "F" ++ "|" ++ "R" ++ "|" ++ "R" ++ "|"
      ++ "R" ++ "|" ++ center (opcode_debug f.opcode) 7 ++ "|" ++ "M" ++ "|"
      ++ center len_label 13 ++ "|" ++ center ext_label 31 ++ "|" ++ "\n"
    ++ spaces 7 ++ "|" ++ spaces 7 ++ "|" ++ "I" ++ "|" ++ "S" ++ "|" ++ "S" ++ "|"
      ++ "S" ++ "|" ++ padRight "op code" 7 ++ "|" ++ "A" ++ "|"
      ++ center "Payload len" 13 ++ "|" ++ center key_note 31 ++ "|" ++ "\n"
    ++ spaces 7 ++ "|" ++ spaces 7 ++ "|" ++ "N" ++ "|" ++ "V" ++ "|" ++ "V" ++ "|"
      ++ "V" ++ "|" ++ center "(4 b)" 7 ++ "|" ++ "S" ++ "|" ++ center "(7 bits)" 13
      ++ "|" ++ center "(16 bits)" 31 ++ "|" ++ "\n"
    ++ spaces 7 ++ "|" ++ spaces 7 ++ "|" ++ spaces 1 ++ "|" ++ "1" ++ "|" ++ "2" ++ "|"
      ++ "3" ++ "|" ++ spaces 7 ++ "|" ++ "K" ++ "|" ++ spaces 13 ++ "|" ++ spaces 31
      ++ "|" ++ "\n"
    ++ spaces 7 ++ "+-------+-+-+-+-+-------+-+-------------+-------------------------------+"
      ++ "\n")

/-- `WebSocketFrame::format_second_dword`.  The Short branch reads the first
two masked payload bytes, the first two unmasked bytes and their character
previews, all of which panic when the payload holds fewer than two bytes; the
Long branch reads `payload_length_bytes[2..=5]`. -/
def format_second_dword (f : Frame) : Res String :=
  match f.payload_length with
  | PayloadLength.Short _ => do
    let m0 ← idx f.masked_payload 0
    let m1 ← idx f.masked_payload 1
    let u0 ← idx f.unmasked_payload 0
    let u1 ← idx f.unmasked_payload 1
    let c0 ← idx f.payload_chars 0
    let c1 ← idx f.payload_chars 1
    Except.ok (
      spaces 7 ++ "|" ++ center "DWORD" 7 ++ "|"
        ++ center (byte_str (keyAt f.masking_key 2) 8) 15 ++ "|"
        ++ center (byte_str (keyAt f.masking_key 3) 8) 15 ++ "|"
        ++ center (byte_str m0 8) 15 ++ "|" ++ center (byte_str m1 8) 15 ++ "|" ++ "\n"
      ++ spaces 7 ++ "|" ++ center "2" 7 ++ "|" ++ center "" 31 ++ "|" ++ spaces 1
        ++ padLeft (paren m0) 5 ++ spaces 6 ++ "MASKED" ++ spaces 2
        ++ padLeft (paren m1) 5 ++ spaces 6 ++ "|" ++ "\n"
      ++ spaces 7 ++ "|" ++ spaces 7 ++ "|" ++ center "Masking-key (part 2)" 31 ++ "|"
        ++ center (byte_str u0 8) 15 ++ "|" ++ center (byte_str u1 8) 15 ++ "|" ++ "\n"
      ++ spaces 7 ++ "|" ++ spaces 7 ++ "|" ++ center "(16 bits)" 31 ++ "|" ++ spaces 1
        ++ padLeft (paren u0) 5 ++ spaces 1 ++ padRight (quoted c0) 3 ++ spaces 1
        ++ "UNMASKED" ++ spaces 1 ++ padLeft (paren u1) 5 ++ spaces 1
        ++ padRight (quoted c1) 3 ++ spaces 2 ++ "|" ++ "\n"
      ++ spaces 7 ++ "|" ++ spaces 7 ++ "|" ++ center "" 31 ++ "|"
        ++ center "Payload Data (part 1)" 31 ++ "|" ++ "\n"
      ++ spaces 7 ++ "+-------+-------------------------------+-------------------------------+"
        ++ "\n")
  | PayloadLength.Medium _ =>
    Except.ok (
      spaces 7 ++ "|" ++ center "DWORD" 7 ++ "|"
        ++ center (byte_str (keyAt f.masking_key 0) 8) 15 ++ "|"
        ++ center (byte_str (keyAt f.masking_key 1) 8) 15 ++ "|"
        ++ center (byte_str (keyAt f.masking_key 2) 8) 15 ++ "|"
        ++ center (byte_str (keyAt f.masking_key 3) 8) 15 ++ "|" ++ "\n"
      ++ spaces 7 ++ "|" ++ center "2" 7 ++ "|" ++ center "" 31 ++ "|" ++ spaces 31
        ++ "|" ++ "\n"
      ++ spaces 7 ++ "|" ++ spaces 7 ++ "|" ++ center "Masking-key (part 1)" 31 ++ "|"
        ++ center "Masking-key (part 2)" 31 ++ "|" ++ "\n"
      ++ spaces 7 ++ "|" ++ spaces 7 ++ "|" ++ center "(16 bits)" 31 ++ "|"
        ++ center "(16 bits)" 31 ++ "|" ++ "\n"
      ++ spaces 7 ++ "|" ++ spaces 7 ++ "|" ++ center "" 31 ++ "|" ++ center "" 31
        ++ "|" ++ "\n"
      ++ spaces 7 ++ "+-------+-------------------------------+-------------------------------+"
        ++ "\n")
  | PayloadLength.Long _ => do
    let p2 ← idx f.payload_length_bytes 2
    let p3 ← idx f.payload_length_bytes 3
    let p4 ← idx f.payload_length_bytes 4
    let p5 ← idx f.payload_length_bytes 5
    Except.ok (
      spaces 7 ++ "|" ++ center "DWORD" 7 ++ "|" ++ center (byte_str p2 8) 15 ++ "|"
        ++ center (byte_str p3 8) 15 ++ "|" ++ center (byte_str p4 8) 15 ++ "|"
        ++ center (byte_str p5 8) 15 ++ "|" ++ "\n"
      ++ spaces 7 ++ "|" ++ center "2" 7 ++ "|" ++ center "" 31 ++ "|" ++ spaces 31
        ++ "|" ++ "\n"
      ++ spaces 7 ++ "|" ++ spaces 7 ++ "|" ++ center "Payload length (part 2 of 4)" 31
        ++ "|" ++ center "(16 bits)" 31 ++ "|" ++ "\n"
      ++ spaces 7 ++ "|" ++ spaces 7 ++ "|" ++ center "(16 bits)" 31 ++ "|"
        ++ center "(16 bits)" 31 ++ "|" ++ "\n"
      ++ spaces 7 ++ "|" ++ spaces 7 ++ "|" ++ center "" 31 ++ "|" ++ center "" 31
        ++ "|" ++ "\n"
      ++ spaces 7 ++ "+-------+-------------------------------+-------------------------------+"
        ++ "\n")

/-- The inline error marker of `format_payload_dword_row`, naming both
requested byte indices. -/
def row_error_text (from_byte_ix to_byte_ix : Nat) : String :=
  "ERROR: Cannot print dword row. Illegal byte indexes provided. from_byte_ix: "
    ++ Nat.repr from_byte_ix ++ " to_byte_ix: " ++ Nat.repr to_byte_ix

/-- `WebSocketFrame::format_payload_dword_row`.  Note the source slices
`masked_payload`, `unmasked_payload` and `payload_chars` (and computes
`to_byte_ix - from_byte_ix`) BEFORE the `num_bytes` range check, so a range
reaching outside the payload panics instead of producing the inline error
marker; only an in-bounds request of width outside 1..4 returns the marker. -/
def format_payload_dword_row (f : Frame)
    (from_byte_ix to_byte_ix dword_number part_number : Nat) : Res String := do
  let num_bytes ← checkedSub to_byte_ix from_byte_ix
  let masked_bits ← slice f.masked_payload from_byte_ix to_byte_ix
  let unmasked_bits ← slice f.unmasked_payload from_byte_ix to_byte_ix
  let payload_data ← slice f.payload_chars from_byte_ix to_byte_ix
  if num_bytes < 1 || num_bytes > 4 then
    Except.ok (row_error_text from_byte_ix to_byte_ix)
  else
    let line1 := spaces 7 ++ "|" ++ center "DWORD" 7 ++ "|"
      ++ String.join ((List.range num_bytes).map
          (fun i => byte_str (masked_bits.getD i 0) 8 ++ "|")) ++ "\n"
    let line2 := spaces 7 ++ "|" ++ center (Nat.repr dword_number) 7 ++ "|"
      ++ (match num_bytes with
        | 1 => spaces 1 ++ padLeft (paren (masked_bits.getD 0 0)) 5 ++ spaces 5
          ++ "MSK" ++ spaces 1 ++ "|"
        | 2 => spaces 1 ++ padLeft (paren (masked_bits.getD 0 0)) 5 ++ spaces 6
          ++ "MASKED" ++ spaces 2 ++ padLeft (paren (masked_bits.getD 1 0)) 5
          ++ spaces 6 ++ "|"
        | 3 => spaces 1 ++ padLeft (paren (masked_bits.getD 0 0)) 5 ++ spaces 6
          ++ "MASKED" ++ spaces 2 ++ padLeft (paren (masked_bits.getD 1 0)) 5
          ++ spaces 6 ++ "|" ++ spaces 1 ++ padLeft (paren (masked_bits.getD 2 0)) 5
          ++ spaces 5 ++ "MSK" ++ spaces 1 ++ "|"
        | 4 => spaces 1 ++ padLeft (paren (masked_bits.getD 0 0)) 5 ++ spaces 6
          ++ "MASKED" ++ spaces 2 ++ padLeft (paren (masked_bits.getD 1 0)) 5
          ++ spaces 6 ++ "|" ++ spaces 1 ++ padLeft (paren (masked_bits.getD 2 0)) 5
          ++ spaces 6 ++ "MASKED" ++ spaces 2 ++ padLeft (paren (masked_bits.getD 3 0)) 5
          ++ spaces 6 ++ "|"
        | _ => "") ++ "\n"
    let line3 := spaces 7 ++ "|" ++ spaces 7 ++ "|"
      ++ String.join ((List.range num_bytes).map
          (fun i => byte_str (unmasked_bits.getD i 0) 8 ++ "|")) ++ "\n"
    let line4 := spaces 7 ++ "|" ++ spaces 7 ++ "|"
      ++ (match num_bytes with
        | 1 => spaces 1 ++ padLeft (paren (unmasked_bits.getD 0 0)) 5 ++ spaces 1
          ++ quoted (payload_data.getD 0 (Char.ofNat 0)) ++ spaces 1 ++ "UNM"
          ++ spaces 1 ++ "|"
        | 2 => spaces 1 ++ padLeft (paren (unmasked_bits.getD 0 0)) 5 ++ spaces 1
          ++ padRight (quoted (payload_data.getD 0 (Char.ofNat 0))) 3 ++ spaces 1
          ++ "UNMASKED" ++ spaces 1 ++ padLeft (paren (unmasked_bits.getD 1 0)) 5
          ++ spaces 1 ++ padRight (quoted (payload_data.getD 1 (Char.ofNat 0))) 3
          ++ spaces 2 ++ "|"
        | 3 => spaces 1 ++ padLeft (paren (unmasked_bits.getD 0 0)) 5 ++ spaces 1
          ++ padRight (quoted (payload_data.getD 0 (Char.ofNat 0))) 3 ++ spaces 1
          ++ "UNMASKED" ++ spaces 1 ++ padLeft (paren (unmasked_bits.getD 1 0)) 5
          ++ spaces 1 ++ padRight (quoted (payload_data.getD 1 (Char.ofNat 0))) 3
          ++ spaces 2 ++ "|" ++ spaces 1 ++ padLeft (paren (unmasked_bits.getD 2 0)) 5
          ++ spaces 1 ++ padRight (quoted (payload_data.getD 2 (Char.ofNat 0))) 3
          ++ spaces 1 ++ "UNM" ++ spaces 1 ++ "|"
        | 4 => spaces 1 ++ padLeft (paren (unmasked_bits.getD 0 0)) 5 ++ spaces 1
          ++ padRight (quoted (payload_data.getD 0 (Char.ofNat 0))) 3 ++ spaces 1
          ++ "UNMASKED" ++ spaces 1 ++ padLeft (paren (unmasked_bits.getD 1 0)) 5
          ++ spaces 1 ++ padRight (quoted (payload_data.getD 1 (Char.ofNat 0))) 3
          ++ spaces 2 ++ "|" ++ spaces 1 ++ padLeft (paren (unmasked_bits.getD 2 0)) 5
          ++ spaces 1 ++ padRight (quoted (payload_data.getD 2 (Char.ofNat 0))) 3
          ++ spaces 1 ++ "UNMASKED" ++ spaces 1 ++ padLeft (paren (unmasked_bits.getD 3 0)) 5
          ++ spaces 1 ++ padRight (quoted (payload_data.getD 3 (Char.ofNat 0))) 3
          ++ spaces 2 ++ "|"
        | _ => "") ++ "\n"
    let line5 := spaces 7 ++ "|" ++ spaces 7 ++ "|"
      ++ (match num_bytes with
        | 1 => center ("Payload pt " ++ Nat.repr part_number) 15 ++ "|"
        | 2 => center ("Payload Data (part " ++ Nat.repr part_number ++ ")") 31 ++ "|"
        | 3 => center ("Payload Data (part " ++ Nat.repr part_number ++ ")") 47 ++ "|"
        | 4 => center ("Payload Data (part " ++ Nat.repr part_number ++ ")") 63 ++ "|"
        | _ => "") ++ "\n"
    let bottom := spaces 7 ++ "+-------+"
      ++ String.join (List.replicate num_bytes "---------------+") ++ "\n"
    Except.ok (line1 ++ line2 ++ line3 ++ line4 ++ line5 ++ bottom)

/-- The `dword_from` match in `format`: the sequential dword number of the
first generic payload row. -/
def dword_from : PayloadLength → Nat
  | PayloadLength.Short _ => 3
  | PayloadLength.Medium _ => 3
  | PayloadLength.Long _ => 4

/-- The `payload_bytes_formatted_already` match in `format`: payload bytes
folded into the fixed header rows. -/
def payload_bytes_formatted_already : PayloadLength → Nat
  | PayloadLength.Short _ => 2
  | PayloadLength.Medium _ => 0
  | PayloadLength.Long _ => 2

/-- The two row loops at the bottom of `format`, as the list of
`(from_byte_ix, to_byte_ix, dword_number, part_number)` arguments passed to
`format_payload_dword_row`: full 4-byte rows followed by the 1-3 byte
remainder row.  The unguarded `payload_length - payload_bytes_formatted_already`
subtraction is checked, as in the source (debug build). -/
def payload_row_calls (pl : PayloadLength) : Res (List (Nat × Nat × Nat × Nat)) := do
  let payload_length := decoded_payload_length pl
  let folded := payload_bytes_formatted_already pl
  let rem ← checkedSub payload_length folded
  let remaining_payload_dwords := rem / 4
  let full := (List.range remaining_payload_dwords).map
    (fun i => (i * 4 + folded, 4 + (i * 4 + folded), i + dword_from pl, i + folded))
  let remaining_bytes := rem % 4
  Except.ok
    (if remaining_bytes > 0 then
      full ++ [(remaining_payload_dwords * 4 + folded,
                remaining_payload_dwords * 4 + folded + remaining_bytes,
                remaining_payload_dwords + dword_from pl,
                remaining_payload_dwords * 2 + folded)]
    else full)

/-- `WebSocketFrame::format`: header block, first and second fixed dword rows,
then the generic payload rows in loop order. -/
def format (f : Frame) : Res String := do
  let header := format_header f
  let d1 ← format_first_dword f
  let d2 ← format_second_dword f
  let calls ← payload_row_calls f.payload_length
  let rows ← calls.mapM
    (fun c => format_payload_dword_row f c.1 c.2.1 c.2.2.1 c.2.2.2)
  Except.ok (header ++ d1 ++ d2 ++ String.join rows)

/-! ### Substring search (for the rendered-output claims) -/

/-- Does `pat` occur at the head of `l`? -/
def startsWith : List Char → List Char → Bool
  | [], _ => true
  | _ :: _, [] => false
  | a :: as, b :: bs => a == b && startsWith as bs

/-- Does `pat` occur anywhere in `l`? -/
def hasSub (pat : List Char) : List Char → Bool
  | [] => pat.isEmpty
  | c :: t => startsWith pat (c :: t) || hasSub pat t

/-- A fallible render contains a substring: it succeeded and the output
contains the pattern. -/
def resHasSub (r : Res String) (pat : String) : Bool :=
  match r with
  | Except.ok s => hasSub pat.data s.data
  | Except.error _ => false

/-! ### Concrete frames used as witnesses and counterexamples -/

/-- The end-to-end example buffer `81 83 5A 0E 91 36 3B 6C F2`. -/
def data4 : List Nat := [129, 131, 90, 14, 145, 54, 59, 108, 242]

/-- The frame decoded from `data4`. -/
def f4def : Frame :=
  { frame_len := 9
    is_payload_masked := true
    payload_length := PayloadLength.Short 3
    fin_bit := true
    rsv1 := false
    rsv2 := false
    rsv3 := false
    opcode_bits := 1
    opcode := WebSocketOpCode.Text
    mask_bit := true
    payload_length_code := 3
    payload_length_bytes := [3]
    masking_key := (90, 14, 145, 54)
    masked_payload := [59, 108, 242]
    unmasked_payload := [97, 98, 99]
    payload_chars := ['a', 'b', 'c'] }

/-- A buffer declaring payload length 0 but carrying one extra byte past the
masking key (7 bytes total). -/
def data5 : List Nat := [129, 128, 0, 0, 0, 0, 0]

/-- The frame decoded from `data5`: declared length 0, payload views of
length 1. -/
def f5def : Frame :=
  { frame_len := 7
    is_payload_masked := true
    payload_length := PayloadLength.Short 0
    fin_bit := true
    rsv1 := false
    rsv2 := false
    rsv3 := false
    opcode_bits := 1
    opcode := WebSocketOpCode.Text
    mask_bit := true
    payload_length_code := 0
    payload_length_bytes := [0]
    masking_key := (0, 0, 0, 0)
    masked_payload := [0]
    unmasked_payload := [0]
    payload_chars := [Char.ofNat 0] }

/-- A buffer declaring payload length 3 but carrying only one payload byte
after the masking key (7 bytes total, too short for its declared payload). -/
def data6 : List Nat := [129, 131, 90, 14, 145, 54, 59]

/-- The frame decoded from `data6`: declared length 3, payload views of
length 1. -/
def f6def : Frame :=
  { frame_len := 7
    is_payload_masked := true
    payload_length := PayloadLength.Short 3
    fin_bit := true
    rsv1 := false
    rsv2 := false
    rsv3 := false
    opcode_bits := 1
    opcode := WebSocketOpCode.Text
    mask_bit := true
    payload_length_code := 3
    payload_length_bytes := [3]
    masking_key := (90, 14, 145, 54)
    masked_payload := [59]
    unmasked_payload := [97]
    payload_chars := ['a'] }

/-- A buffer whose mask bit (most significant bit of byte 1) is clear:
byte 1 is `0x03`, declaring an unmasked 3-byte payload. -/
def data7 : List Nat := [129, 3, 1, 2, 3, 4, 16]

/-- The frame decoded from `data7`: decoding succeeds even though the mask
bit is clear. -/
def f7def : Frame :=
  { frame_len := 7
    is_payload_masked := false
    payload_length := PayloadLength.Short 3
    fin_bit := true
    rsv1 := false
    rsv2 := false
    rsv3 := false
    opcode_bits := 1
    opcode := WebSocketOpCode.Text
    mask_bit := false
    payload_length_code := 3
    payload_length_bytes := [3]
    masking_key := (1, 2, 3, 4)
    masked_payload := [16]
    unmasked_payload := [17]
    payload_chars := [Char.ofNat 17] }

/-- A Short frame with a 5-byte payload (3 bytes beyond the 2 folded into
the fixed header rows). -/
def data9 : List Nat := [129, 133, 1, 2, 3, 4, 16, 17, 18, 19, 20]

/-- The frame decoded from `data9`. -/
def f9def : Frame :=
  { frame_len := 11
    is_payload_masked := true
    payload_length := PayloadLength.Short 5
    fin_bit := true
    rsv1 := false
    rsv2 := false
    rsv3 := false
    opcode_bits := 1
    opcode := WebSocketOpCode.Text
    mask_bit := true
    payload_length_code := 5
    payload_length_bytes := [5]
    masking_key := (1, 2, 3, 4)
    masked_payload := [16, 17, 18, 19, 20]
    unmasked_payload := [17, 19, 17, 23, 21]
    payload_chars := [Char.ofNat 17, Char.ofNat 19, Char.ofNat 17, Char.ofNat 23,
      Char.ofNat 21] }

/-- The literal substring `(97) 'a'` expected in the rendered output. -/
def sub_97a : String := "(97) " ++ sq ++ "a" ++ sq

/-- The literal substring `(98) 'b'` expected in the rendered output. -/
def sub_98b : String := "(98) " ++ sq ++ "b" ++ sq

/-- The literal substring `(99) 'c'` expected in the rendered output. -/
def sub_99c : String := "(99) " ++ sq ++ "c" ++ sq

/-- The single-byte trailing row label for part 2. -/
def sub_pt2 : String := "Payload pt 2"

/-- The 2-4 byte row label for part 2. -/
def sub_part2 : String := "Payload Data (part 2)"

/-! ### The spec-level pure unmask operation

`from_bytes` unmasks inline in its loop; the specification presents the same
computation as a standalone pure function over the masked bytes.  `unmaskFrom`
mirrors the loop body (`output[i] = masked[i] XOR key[i % 4]`) with the
running index explicit. -/

/-- One pass of cyclic XOR starting at index `i`. -/
def unmaskFrom (key : Nat × Nat × Nat × Nat) (i : Nat) : List Nat → List Nat
  | [] => []
  | b :: rest => Nat.xor b (keyAt key (i % 4)) :: unmaskFrom key (i + 1) rest

/-- `unmask(masked, key)`: cyclic 4-byte XOR, as in the unmask loop of
`from_bytes`. -/
def unmask (masked : List Nat) (key : Nat × Nat × Nat × Nat) : List Nat :=
  unmaskFrom key 0 masked

/-! ### Helper lemmas -/

/-- Inversion for a successful `Except` bind. -/
theorem bind_ok {α β : Type} {x : Res α} {g : α → Res β} {b : β}
    (h : x >>= g = Except.ok b) : ∃ a, x = Except.ok a ∧ g a = Except.ok b := by
  cases x with
  | error e => simp [Bind.bind, Except.bind] at h
  | ok a => exact ⟨a, rfl, by simpa [Bind.bind, Except.bind] using h⟩

/-- `idx` succeeds exactly when the index is in bounds. -/
theorem idx_ok_iff {α : Type} {l : List α} {i : Nat} {v : α} :
    idx l i = Except.ok v ↔ l[i]? = some v := by
  unfold idx
  cases l[i]? <;> simp

/-- A successful optional lookup fixes `getD`. -/
theorem getD_of_getElem? {α : Type} {l : List α} {i : Nat} {v : α}
    (h : l[i]? = some v) (d : α) : l.getD i d = v := by
  rw [List.getD_eq_getElem?_getD, h]
  rfl

/-- A successful optional lookup bounds the index. -/
theorem lt_length_of_getElem? {α : Type} {l : List α} {i : Nat} {v : α}
    (h : l[i]? = some v) : i < l.length := by
  by_contra hge
  rw [List.getElem?_eq_none (by omega)] at h
  cases h

/-- In-bounds `idx` succeeds with the `getD` value. -/
theorem idx_eq_ok_of_lt {α : Type} {l : List α} {i : Nat} (h : i < l.length) (d : α) :
    idx l i = Except.ok (l.getD i d) := by
  rw [idx_ok_iff, List.getElem?_eq_getElem h, List.getD_eq_getElem?_getD,
    List.getElem?_eq_getElem h]
  rfl

/-- Inversion for a successful checked subtraction. -/
theorem checkedSub_ok {a b n : Nat} (h : checkedSub a b = Except.ok n) :
    b ≤ a ∧ n = a - b := by
  unfold checkedSub at h
  by_cases hba : b ≤ a
  · rw [if_pos hba] at h
    exact ⟨hba, (Except.ok.inj h).symm⟩
  · rw [if_neg hba] at h
    cases h

/-- Inversion for a successful slice. -/
theorem slice_ok {α : Type} {l : List α} {a b : Nat} {r : List α}
    (h : slice l a b = Except.ok r) :
    a ≤ b ∧ b ≤ l.length ∧ r = (l.drop a).take (b - a) := by
  unfold slice at h
  by_cases hab : a > b
  · rw [if_pos hab] at h; cases h
  · rw [if_neg hab] at h
    by_cases hbl : b > l.length
    · rw [if_pos hbl] at h; cases h
    · rw [if_neg hbl] at h
      exact ⟨by omega, by omega, (Except.ok.inj h).symm⟩

/-- Characterisation of a successful run of the unmask loop. -/
theorem unmaskLoop_ok (data : List Nat) (key : Nat × Nat × Nat × Nat) (start : Nat) :
    ∀ (n i : Nat) (l : List Nat), unmaskLoop data key start i n = Except.ok l →
      l.length = n ∧
      ∀ j, j < n → l.getD j 0 =
        Nat.xor (data.getD (start + i + j) 0) (keyAt key ((i + j) % 4)) := by
  intro n
  induction n with
  | zero =>
    intro i l h
    rw [unmaskLoop] at h
    have := (Except.ok.inj h).symm
    subst this
    exact ⟨rfl, fun j hj => absurd hj (Nat.not_lt_zero j)⟩
  | succ m ih =>
    intro i l h
    rw [unmaskLoop] at h
    obtain ⟨b, hb, h⟩ := bind_ok h
    obtain ⟨rest, hrest, h⟩ := bind_ok h
    have hl := (Except.ok.inj h).symm
    subst hl
    obtain ⟨hlen, helem⟩ := ih (i + 1) rest hrest
    refine ⟨by simp [hlen], ?_⟩
    intro j hj
    cases j with
    | zero =>
      have hb' : data[start + i]? = some b := idx_ok_iff.mp hb
      simp [List.getD_eq_getElem?_getD, hb']
    | succ k =>
      have hk : k < m := by omega
      have he := helem k hk
      have e1 : start + (i + 1) + k = start + i + (k + 1) := by omega
      have e2 : i + 1 + k = i + (k + 1) := by omega
      rw [e1, e2] at he
      simpa using he

/-- Master inversion for a successful decode: the buffer has at least the
two header bytes, the payload length resolves from the length code and
extension bytes, the payload start is in bounds, the mask bit is recorded
unchecked, the masked view is the tail of the buffer from the payload start,
and the unmasked bytes are the cyclic XOR of the corresponding buffer bytes
with the masking key. -/
theorem from_bytes_ok_inv (data : List Nat) (f : Frame)
    (h : from_bytes data = Except.ok f) :
    2 ≤ data.length ∧
    get_payload_length (get_bits_from_byte (data.getD 1 0) 127) (extension_data data)
      = Except.ok f.payload_length ∧
    payload_start_index f.payload_length ≤ data.length ∧
    f.is_payload_masked = get_bit (data.getD 1 0) 0 ∧
    f.mask_bit = f.is_payload_masked ∧
    f.masked_payload = data.drop (payload_start_index f.payload_length) ∧
    f.unmasked_payload.length = data.length - payload_start_index f.payload_length ∧
    (∀ i, i < f.unmasked_payload.length →
      f.unmasked_payload.getD i 0 =
        Nat.xor (data.getD (payload_start_index f.payload_length + i) 0)
          (keyAt f.masking_key (i % 4))) ∧
    f.payload_chars = f.unmasked_payload.map (fun b => Char.ofNat b) := by
  rw [from_bytes] at h
  obtain ⟨b0, hb0, h⟩ := bind_ok h
  obtain ⟨b1, hb1, h⟩ := bind_ok h
  obtain ⟨pl, hpl, h⟩ := bind_ok h
  obtain ⟨plb, hplb, h⟩ := bind_ok h
  obtain ⟨num, hnum, h⟩ := bind_ok h
  obtain ⟨key, hkey, h⟩ := bind_ok h
  obtain ⟨unm, hunm, h⟩ := bind_ok h
  obtain ⟨msk, hmsk, h⟩ := bind_ok h
  have hf := (Except.ok.inj h).symm
  subst hf
  have hb1v : data.getD 1 0 = b1 := getD_of_getElem? (idx_ok_iff.mp hb1) 0
  have hlen2 : 2 ≤ data.length := lt_length_of_getElem? (idx_ok_iff.mp hb1)
  obtain ⟨hle, hnumv⟩ := checkedSub_ok hnum
  obtain ⟨-, -, hmskv⟩ := slice_ok hmsk
  obtain ⟨hulen, huelem⟩ := unmaskLoop_ok data key (payload_start_index pl) num 0 unm hunm
  subst hnumv
  refine ⟨hlen2, ?_, hle, ?_, rfl, ?_, ?_, ?_, rfl⟩
  · rw [hb1v]; exact hpl
  · rw [hb1v]
  · rw [hmskv]
    have : data.length - payload_start_index pl = (data.drop (payload_start_index pl)).length := by
      simp
    rw [this, List.take_length]
  · simpa using hulen
  · intro i hi
    dsimp only at hi ⊢
    have := huelem i (by omega)
    simpa using this

/-- XOR with the same value twice cancels. -/
theorem xor_xor_cancel (a k : Nat) : Nat.xor (Nat.xor a k) k = a := by
  change (a ^^^ k) ^^^ k = a
  rw [Nat.xor_assoc, Nat.xor_self, Nat.xor_zero]

/-- One cyclic XOR pass is self-inverse at any starting index. -/
theorem unmaskFrom_unmaskFrom (key : Nat × Nat × Nat × Nat) :
    ∀ (p : List Nat) (i : Nat), unmaskFrom key i (unmaskFrom key i p) = p := by
  intro p
  induction p with
  | nil => intro i; rfl
  | cons b rest ih =>
    intro i
    simp only [unmaskFrom]
    rw [ih (i + 1), xor_xor_cancel]

/-! ### Claims -/

/-- Claim C1: for every 7-bit length code `c` and extension-byte list `ext`,
a code in 0..125 resolves to `Short c` consuming 0 extension bytes, code 126
resolves to `Medium` of the big-endian u16 of the first two extension bytes
consuming 2, and code 127 resolves to `Long` of the big-endian u64 of the
first eight consuming 8; the masking key starts at byte offset
`2 + consumed` and the payload 4 bytes after that (offsets 6, 8 and 14). -/
theorem c1_payload_length_resolution (c : Nat) (ext : List Nat) (hc : c < 128) :
    (c ≤ 125 →
      get_payload_length c ext = Except.ok (PayloadLength.Short c) ∧
      ext_bytes_consumed (PayloadLength.Short c) = 0 ∧
      masking_key_offset (PayloadLength.Short c) = 2 + 0 ∧
      payload_start_index (PayloadLength.Short c) = 2 + 0 + 4) ∧
    (c = 126 → 2 ≤ ext.length →
      get_payload_length c ext
        = Except.ok (PayloadLength.Medium (ext.getD 0 0 * 256 + ext.getD 1 0)) ∧
      ext_bytes_consumed (PayloadLength.Medium (ext.getD 0 0 * 256 + ext.getD 1 0)) = 2 ∧
      masking_key_offset (PayloadLength.Medium (ext.getD 0 0 * 256 + ext.getD 1 0))
        = 2 + 2 ∧
      payload_start_index (PayloadLength.Medium (ext.getD 0 0 * 256 + ext.getD 1 0))
        = 2 + 2 + 4) ∧
    (c = 127 → 8 ≤ ext.length →
      get_payload_length c ext
        = Except.ok (PayloadLength.Long
            (ext.getD 0 0 * 256 ^ 7 + ext.getD 1 0 * 256 ^ 6 + ext.getD 2 0 * 256 ^ 5 +
             ext.getD 3 0 * 256 ^ 4 + ext.getD 4 0 * 256 ^ 3 + ext.getD 5 0 * 256 ^ 2 +
             ext.getD 6 0 * 256 + ext.getD 7 0)) ∧
      ext_bytes_consumed (PayloadLength.Long 0) = 8 ∧
      masking_key_offset (PayloadLength.Long 0) = 2 + 8 ∧
      payload_start_index (PayloadLength.Long 0) = 2 + 8 + 4) ∧
    (∀ pl : PayloadLength,
      masking_key_offset pl = 2 + ext_bytes_consumed pl ∧
      payload_start_index pl = masking_key_offset pl + 4) := by
  refine ⟨?_, ?_, ?_, ?_⟩
  · intro h125
    rw [get_payload_length, if_pos h125]
    exact ⟨rfl, rfl, rfl, rfl⟩
  · intro h126 hlen
    subst h126
    rw [get_payload_length, if_neg (by omega), if_pos rfl]
    rw [show ((do
        let e0 ← idx ext 0
        let e1 ← idx ext 1
        Except.ok (PayloadLength.Medium (e0 * 256 + e1))) : Res PayloadLength)
      = Except.ok (PayloadLength.Medium (ext.getD 0 0 * 256 + ext.getD 1 0)) from by
      rw [idx_eq_ok_of_lt (by omega) 0, idx_eq_ok_of_lt (by omega) 0]; rfl]
    exact ⟨rfl, rfl, rfl, rfl⟩
  · intro h127 hlen
    subst h127
    rw [get_payload_length, if_neg (by omega), if_neg (by omega), if_pos rfl]
    rw [idx_eq_ok_of_lt (show 0 < ext.length by omega) 0]
    rw [show (idx ext 1) = Except.ok (ext.getD 1 0) from idx_eq_ok_of_lt (by omega) 0]
    rw [show (idx ext 2) = Except.ok (ext.getD 2 0) from idx_eq_ok_of_lt (by omega) 0]
    rw [show (idx ext 3) = Except.ok (ext.getD 3 0) from idx_eq_ok_of_lt (by omega) 0]
    rw [show (idx ext 4) = Except.ok (ext.getD 4 0) from idx_eq_ok_of_lt (by omega) 0]
    rw [show (idx ext 5) = Except.ok (ext.getD 5 0) from idx_eq_ok_of_lt (by omega) 0]
    rw [show (idx ext 6) = Except.ok (ext.getD 6 0) from idx_eq_ok_of_lt (by omega) 0]
    rw [show (idx ext 7) = Except.ok (ext.getD 7 0) from idx_eq_ok_of_lt (by omega) 0]
    exact ⟨rfl, rfl, rfl, rfl⟩
  · intro pl
    cases pl <;> exact ⟨rfl, rfl⟩

/-- Witness for C1 at the three concrete resolver inputs of the spec. -/
theorem c1_payload_length_resolution_witness :
    (get_payload_length 5 [] = Except.ok (PayloadLength.Short 5) ∧
     payload_start_index (PayloadLength.Short 5) = 6) ∧
    (get_payload_length 126 [0, 5] = Except.ok (PayloadLength.Medium 5) ∧
     payload_start_index (PayloadLength.Medium 5) = 8) ∧
    (get_payload_length 127 [0, 0, 0, 0, 0, 0, 0, 10] = Except.ok (PayloadLength.Long 10) ∧
     payload_start_index (PayloadLength.Long 10) = 14) := by
  refine ⟨⟨?_, ?_⟩, ⟨?_, ?_⟩, ⟨?_, ?_⟩⟩
  · exact ((c1_payload_length_resolution 5 [] (by decide)).1 (by decide)).1
  · exact ((c1_payload_length_resolution 5 [] (by decide)).1 (by decide)).2.2.2
  · exact ((c1_payload_length_resolution 126 [0, 5] (by decide)).2.1 rfl (by decide)).1
  · exact ((c1_payload_length_resolution 126 [0, 5] (by decide)).2.1 rfl (by decide)).2.2.2
  · exact ((c1_payload_length_resolution 127 [0, 0, 0, 0, 0, 0, 0, 10]
      (by decide)).2.2.1 rfl (by decide)).1
  · exact ((c1_payload_length_resolution 127 [0, 0, 0, 0, 0, 0, 0, 10]
      (by decide)).2.2.1 rfl (by decide)).2.2.2

/-- Claim C2: for every frame built by `from_bytes` and every index below
the unmasked payload length, the unmasked byte is the masked byte XOR
`masking_key[i % 4]`, and `payload_chars[i]` is the character with that
unmasked byte as its code point. -/
theorem c2_unmask_relation (data : List Nat) (f : Frame)
    (h : from_bytes data = Except.ok f) (i : Nat)
    (hi : i < f.unmasked_payload.length) :
    f.unmasked_payload.getD i 0
      = Nat.xor (f.masked_payload.getD i 0) (keyAt f.masking_key (i % 4)) ∧
    f.payload_chars.getD i (Char.ofNat 0)
      = Char.ofNat (f.unmasked_payload.getD i 0) := by
  obtain ⟨-, -, hps, -, -, hmsk, hlen, helem, hchars⟩ := from_bytes_ok_inv data f h
  constructor
  · rw [helem i hi, hmsk]
    rw [List.getD_eq_getElem?_getD, List.getD_eq_getElem?_getD, List.getElem?_drop]
  · rw [hchars]
    rw [List.getD_eq_getElem?_getD, List.getD_eq_getElem?_getD, List.getElem?_map]
    rw [List.getElem?_eq_getElem (by omega)]
    rfl

/-- Witness for C2 on the example frame at index 0. -/
theorem c2_unmask_relation_witness :
    f4def.unmasked_payload.getD 0 0
      = Nat.xor (f4def.masked_payload.getD 0 0) (keyAt f4def.masking_key (0 % 4)) ∧
    f4def.payload_chars.getD 0 (Char.ofNat 0)
      = Char.ofNat (f4def.unmasked_payload.getD 0 0) :=
  c2_unmask_relation data4 f4def (by decide) 0 (by decide)

/-- Claim C3: cyclic-XOR unmasking is an involution: for every 4-byte key
and byte sequence, unmasking twice returns the original sequence. -/
theorem c3_unmask_involution (key : Nat × Nat × Nat × Nat) (p : List Nat) :
    unmask (unmask p key) key = p :=
  unmaskFrom_unmaskFrom key p 0

set_option maxRecDepth 8000

/-- Claim C4: the buffer `81 83 5A 0E 91 36 3B 6C F2` decodes to fin set,
opcode Text, mask bit set, payload length `Short 3`, masking key
`5A 0E 91 36`, unmasked payload `61 62 63`; the rendered diagram contains
the literal substrings for the three unmasked characters and the label
`Payload pt 2`, the latter on the trailing single-byte row (the unique
generic row request, bytes 2..3). -/
theorem c4_end_to_end :
    from_bytes data4 = Except.ok f4def ∧
    f4def.fin_bit = true ∧
    f4def.opcode = WebSocketOpCode.Text ∧
    f4def.mask_bit = true ∧
    f4def.payload_length = PayloadLength.Short 3 ∧
    f4def.masking_key = (90, 14, 145, 54) ∧
    f4def.unmasked_payload = [97, 98, 99] ∧
    (format f4def).map (fun s =>
        (hasSub sub_97a.data s.data, hasSub sub_98b.data s.data,
         hasSub sub_99c.data s.data, hasSub sub_pt2.data s.data))
      = Except.ok (true, true, true, true) ∧
    payload_row_calls f4def.payload_length = Except.ok [(2, 3, 3, 2)] ∧
    resHasSub (format_payload_dword_row f4def 2 3 3 2) sub_pt2 = true := by
  decide

/-- Counterexample to claim C5 as stated: `data5` declares payload length 0
yet carries one byte past the masking key; `from_bytes` succeeds and both
payload views have length 1, not the decoded length 0. -/
theorem c5_counterexample :
    from_bytes data5 = Except.ok f5def ∧
    f5def.payload_length = PayloadLength.Short 0 ∧
    f5def.masked_payload.length = 1 ∧
    f5def.unmasked_payload.length = 1 ∧
    f5def.masked_payload.length ≠ decoded_payload_length f5def.payload_length := by
  decide

/-- Claim C5 as amended: for every frame built by `from_bytes`, the masked
view runs from the payload start to the end of the buffer, so its length is
the buffer length minus the payload start offset (which equals the decoded
length only for an exactly-sized buffer), and the unmasked payload has the
same length as the masked view. -/
theorem c5_payload_view_lengths (data : List Nat) (f : Frame)
    (h : from_bytes data = Except.ok f) :
    f.masked_payload.length = data.length - payload_start_index f.payload_length ∧
    f.unmasked_payload.length = f.masked_payload.length := by
  obtain ⟨-, -, -, -, -, hmsk, hlen, -, -⟩ := from_bytes_ok_inv data f h
  constructor
  · rw [hmsk, List.length_drop]
  · rw [hmsk, List.length_drop, hlen]

/-- Witness for the amended C5 on the example frame. -/
theorem c5_payload_view_lengths_witness :
    f4def.masked_payload.length = data4.length - payload_start_index f4def.payload_length ∧
    f4def.unmasked_payload.length = f4def.masked_payload.length :=
  c5_payload_view_lengths data4 f4def (by decide)

/-- Counterexample to claim C6 as stated: `data6` is too short for the
payload implied by its own length code (it declares 3 payload bytes but
carries only 1 after the masking key), yet frame construction succeeds
instead of failing. -/
theorem c6_counterexample :
    from_bytes data6 = Except.ok f6def ∧
    decoded_payload_length f6def.payload_length = 3 ∧
    data6.length = 7 ∧
    payload_start_index f6def.payload_length
      + decoded_payload_length f6def.payload_length = 9 := by
  decide

/-- Claim C6 as amended: a buffer too short for the two header bytes, the
extended length field, or the masking key makes `from_bytes` fail with an
error and no Frame at all; the error is the modelled runtime panic
(index-out-of-bounds carrying the length and index, or a bare subtraction
overflow), and a buffer reaching the payload start but shorter than the
declared payload is not rejected. -/
theorem c6_short_header_fails (data : List Nat)
    (h : data.length < min_frame_size data) :
    ∃ e, from_bytes data = Except.error e := by
  cases hfb : from_bytes data with
  | error e => exact ⟨e, rfl⟩
  | ok f =>
    exfalso
    obtain ⟨hlen2, hgpl, hps, -⟩ := from_bytes_ok_inv data f hfb
    rw [min_frame_size, if_neg (by omega)] at h
    by_cases h125 : get_bits_from_byte (data.getD 1 0) 127 ≤ 125
    · rw [get_payload_length, if_pos h125] at hgpl
      have hpl := Except.ok.inj hgpl
      rw [← hpl, payload_start_index] at hps
      rw [if_pos h125] at h
      omega
    · by_cases h126 : get_bits_from_byte (data.getD 1 0) 127 = 126
      · rw [get_payload_length, if_neg h125, if_pos h126] at hgpl
        obtain ⟨e0, he0, hgpl⟩ := bind_ok hgpl
        obtain ⟨e1, he1, hgpl⟩ := bind_ok hgpl
        have hpl := Except.ok.inj hgpl
        rw [← hpl, payload_start_index] at hps
        rw [if_neg h125, if_pos h126] at h
        omega
      · by_cases h127 : get_bits_from_byte (data.getD 1 0) 127 = 127
        · rw [get_payload_length, if_neg h125, if_neg h126, if_pos h127] at hgpl
          obtain ⟨e0, he0, hgpl⟩ := bind_ok hgpl
          obtain ⟨e1, he1, hgpl⟩ := bind_ok hgpl
          obtain ⟨e2, he2, hgpl⟩ := bind_ok hgpl
          obtain ⟨e3, he3, hgpl⟩ := bind_ok hgpl
          obtain ⟨e4, he4, hgpl⟩ := bind_ok hgpl
          obtain ⟨e5, he5, hgpl⟩ := bind_ok hgpl
          obtain ⟨e6, he6, hgpl⟩ := bind_ok hgpl
          obtain ⟨e7, he7, hgpl⟩ := bind_ok hgpl
          have hpl := Except.ok.inj hgpl
          rw [← hpl, payload_start_index] at hps
          rw [if_neg h125, if_neg h126] at h
          omega
        · rw [get_payload_length, if_neg h125, if_neg h126, if_neg h127] at hgpl
          cases hgpl

/-- Witness for the amended C6 on the empty buffer. -/
theorem c6_short_header_fails_witness :
    ([] : List Nat).length < min_frame_size []
      ∧ ∃ e, from_bytes ([] : List Nat) = Except.error e :=
  ⟨by decide, c6_short_header_fails [] (by decide)⟩

/-- Counterexample to claim C7 as stated: `data7` has its mask bit clear
(byte 1 is `0x03`), yet decoding succeeds and returns a Frame recording
`is_payload_masked = false` instead of failing with any error. -/
theorem c7_counterexample :
    from_bytes data7 = Except.ok f7def ∧
    f7def.is_payload_masked = false ∧
    f7def.mask_bit = false := by
  decide

/-- Claim C7 as amended: `from_bytes` never inspects the mask bit to reject
input; every successful decode simply records the mask bit of byte 1, so
buffers with a clear mask bit decode like any other (and are even XORed with
the bytes at the masking-key position). -/
theorem c7_mask_bit_recorded (data : List Nat) (f : Frame)
    (h : from_bytes data = Except.ok f) :
    f.is_payload_masked = get_bit (data.getD 1 0) 0 ∧
    f.mask_bit = f.is_payload_masked := by
  obtain ⟨-, -, -, hm, hmb, -⟩ := from_bytes_ok_inv data f h
  exact ⟨hm, hmb⟩

/-- Witness for the amended C7 on the clear-mask-bit buffer. -/
theorem c7_mask_bit_recorded_witness :
    f7def.is_payload_masked = get_bit (data7.getD 1 0) 0 ∧
    f7def.mask_bit = f7def.is_payload_masked :=
  c7_mask_bit_recorded data7 f7def (by decide)

/-- Counterexample to claim C8 as stated: a row request of width 3 whose
range 2..5 exceeds the 3-byte payload of the example frame panics in the
slice taken before the range check, instead of producing the inline error
marker. -/
theorem c8_counterexample :
    format_payload_dword_row f4def 2 5 3 2 = Except.error (Panic.sliceOOB 2 5 3) := by
  decide

/-- Claim C8 as amended: a row request whose slices stay within the payload
views but whose width is outside 1..4 returns the inline error marker
(naming both requested indices) as an ordinary result, so the enclosing
render continues; only requests reaching outside the payload panic. -/
theorem c8_row_width_marker (f : Frame) (a b dn pn : Nat)
    (hab : a ≤ b) (hm : b ≤ f.masked_payload.length)
    (hu : b ≤ f.unmasked_payload.length) (hc : b ≤ f.payload_chars.length)
    (hw : b - a < 1 ∨ 4 < b - a) :
    format_payload_dword_row f a b dn pn = Except.ok (row_error_text a b) := by
  have h1 : checkedSub b a = Except.ok (b - a) := by rw [checkedSub, if_pos hab]
  have h2 : slice f.masked_payload a b
      = Except.ok ((f.masked_payload.drop a).take (b - a)) := by
    rw [slice, if_neg (by omega), if_neg (by omega)]
  have h3 : slice f.unmasked_payload a b
      = Except.ok ((f.unmasked_payload.drop a).take (b - a)) := by
    rw [slice, if_neg (by omega), if_neg (by omega)]
  have h4 : slice f.payload_chars a b
      = Except.ok ((f.payload_chars.drop a).take (b - a)) := by
    rw [slice, if_neg (by omega), if_neg (by omega)]
  have hcond : (decide (b - a < 1) || decide (b - a > 4)) = true := by
    rcases hw with hw | hw
    · simp [hw]
    · simp [hw]
  simp only [format_payload_dword_row, h1, h2, h3, h4, Bind.bind, Except.bind]
  rw [if_pos hcond]

/-- Witness for the amended C8: a width-0 in-bounds request on the example
frame yields the inline marker naming both indices. -/
theorem c8_row_width_marker_witness :
    format_payload_dword_row f4def 0 0 5 0 = Except.ok (row_error_text 0 0) :=
  c8_row_width_marker f4def 0 0 5 0 (by decide) (by decide) (by decide) (by decide)
    (Or.inl (by decide))

/-- Claim C9: a Short frame with a 5-byte payload produces exactly one
generic row request beyond the fixed header rows, covering bytes 2..5
(width 3) with part number 2, and its rendered row carries the label
`Payload Data (part 2)`; payloads of exactly the header-folded amount
(2 for Short/Long, 0 for Medium) produce zero generic row requests. -/
theorem c9_row_group_layout :
    payload_row_calls (PayloadLength.Short 5) = Except.ok [(2, 5, 3, 2)] ∧
    from_bytes data9 = Except.ok f9def ∧
    f9def.payload_length = PayloadLength.Short 5 ∧
    resHasSub (format f9def) sub_part2 = true ∧
    resHasSub (format_payload_dword_row f9def 2 5 3 2) sub_part2 = true ∧
    payload_row_calls (PayloadLength.Short 2) = Except.ok [] ∧
    payload_row_calls (PayloadLength.Medium 0) = Except.ok [] ∧
    payload_row_calls (PayloadLength.Long 2) = Except.ok [] := by
  refine ⟨?_, ?_, ?_, ?_, ?_, ?_, ?_, ?_⟩ <;> decide

/-- Claim C10: for every Short frame whose decoded payload length is 0 or 1,
`format` fails instead of returning a diagram: the fixed second-dword rows
read the first two payload bytes unconditionally, and the remaining-byte
computation subtracts the 2 header-folded bytes from the payload length
without a guard. -/
theorem c10_format_fails_short_small (f : Frame) (n : Nat)
    (hpl : f.payload_length = PayloadLength.Short n) (hn : n ≤ 1) :
    ∃ e, format f = Except.error e := by
  have hd1 : ∃ s, format_first_dword f = Except.ok s := by
    simp only [format_first_dword, hpl, Bind.bind, Except.bind]
    exact ⟨_, rfl⟩
  obtain ⟨s1, hd1⟩ := hd1
  cases hd2 : format_second_dword f with
  | error e =>
    exact ⟨e, by simp only [format, hd1, hd2, Bind.bind, Except.bind]⟩
  | ok s2 =>
    refine ⟨Panic.subOverflow, ?_⟩
    have hcalls : payload_row_calls f.payload_length = Except.error Panic.subOverflow := by
      rw [hpl]
      simp only [payload_row_calls, decoded_payload_length,
        payload_bytes_formatted_already, checkedSub, Bind.bind, Except.bind]
      rw [if_neg (by omega)]
    simp only [format, hd1, hd2, hcalls, Bind.bind, Except.bind]

/-- Witness for C10 on the length-0 frame decoded from `data5`. -/
theorem c10_format_fails_short_small_witness :
    f5def.payload_length = PayloadLength.Short 0 ∧ ∃ e, format f5def = Except.error e :=
  ⟨rfl, c10_format_fails_short_small f5def 0 rfl (by decide)⟩

end Bitformat
